import Mathlib

/-!
Verification of the live-chat core of the UMT admission chatbot backend.

The definitions below are a shallow embedding of the live-chat controller
(`Server/Server.js`, second controller variant: `sendMessage` at lines
305-331, `getMessages` at 335-366, `getChatUsers` at 371-387,
`getAllUserChats` at 391-431) and of the socket relay
(`Server/chatSocket.js`, `new message` handler at lines 33-40).

Modelling choices:
- An identity is an opaque `String`; the fixed admin id is the literal from
  the source.
- The Mongo collection `LiveChat` is a `List Message` in insertion order;
  `LiveChat.create` appends.  The store-assigned `createdAt` is passed in
  explicitly as `now : Nat` (Mongoose sets it at persistence time).
- Request fields that may be absent are `Option String`; JavaScript
  truthiness of such a field (`!x` in the source) is `optTruthy`: an absent
  field and the empty string are both falsy.
- `.sort` on a Mongo cursor is modelled as the stable `List.insertionSort`
  on the comparison key; the aggregation accumulator `$last` is the last
  element of the group in pipeline (insertion) order, which is what MongoDB
  computes when no `$sort` stage precedes the `$group` stage.
- An HTTP 400 response is `ChatError.validationError`, an HTTP 403 response
  is `ChatError.authorizationError`; handlers that can answer with one of
  these return `Except`.  `sendMessage` also returns the post-call store so
  that write effects are visible.
-/

/-- The fixed admin identity, the literal `ADMIN_ID` of the source. -/
def ADMIN_ID : String := "6883df2c8a712fda91389b6a"

/-- One persisted `LiveChat` document: sender, receiver, text, timestamp. -/
structure Message where
  sender : String
  receiver : String
  message : String
  createdAt : Nat
  deriving Repr, DecidableEq

/-- The request body of `POST /send`: both fields may be absent. -/
structure SendBody where
  message : Option String
  receiver : Option String
  deriving Repr, DecidableEq

/-- Errors the live-chat handlers answer with: HTTP 400 and HTTP 403. -/
inductive ChatError where
  | validationError (msg : String)
  | authorizationError (msg : String)
  deriving Repr, DecidableEq

/-- JavaScript truthiness of an optional string field: `!x` is true exactly
when the field is absent or the empty string. -/
def optTruthy : Option String → Bool
  | none => false
  | some s => s != ""

/-- Comparison key of `.sort(\x7b createdAt: 1 \x7d)`. -/
def msgLe (a b : Message) : Prop := a.createdAt ≤ b.createdAt

instance : DecidableRel msgLe := fun a b => Nat.decLe a.createdAt b.createdAt

instance : IsTotal Message msgLe := ⟨fun a b => Nat.le_total a.createdAt b.createdAt⟩

instance : IsTrans Message msgLe := ⟨fun _ _ _ h1 h2 => Nat.le_trans h1 h2⟩

/-- Embedding of `sendMessage` (Server.js 305-331).  The source reads the
caller from `req.user._id`, rejects a falsy `message`, then either requires
a truthy `receiver` (admin caller) or forces the receiver to `ADMIN_ID`
(any other caller), and finally `LiveChat.create`s the document.  Early
`res.status(400)` returns become `Except.error` results that leave the
store untouched. -/
def sendMessage (callerIdentity : String) (body : SendBody) (now : Nat)
    (store : List Message) : Except ChatError Message × List Message :=
  if optTruthy body.message = false then
    (Except.error (ChatError.validationError "Message content is required"), store)
  else if callerIdentity = ADMIN_ID then
    if optTruthy body.receiver = false then
      (Except.error (ChatError.validationError "Receiver required"), store)
    else
      let m : Message :=
        { sender := callerIdentity
          receiver := body.receiver.getD ""
          message := body.message.getD ""
          createdAt := now }
      (Except.ok m, store ++ [m])
  else
    let m : Message :=
      { sender := callerIdentity
        receiver := ADMIN_ID
        message := body.message.getD ""
        createdAt := now }
    (Except.ok m, store ++ [m])

/-- The `$or` filter of both `LiveChat.find` calls in `getMessages`: the
document lies between identities `a` and `b` (in either direction). -/
def betweenPred (a b : String) (m : Message) : Bool :=
  (m.sender == a && m.receiver == b) || (m.sender == b && m.receiver == a)

/-- Embedding of `getMessages` (Server.js 335-366).  When the caller is the
admin and `req.query.userId` is truthy, the conversation between admin and
that user is returned; otherwise the conversation between the caller and
admin.  Both branches sort ascending by `createdAt`. -/
def getMessages (callerIdentity : String) (queryUserId : Option String)
    (store : List Message) : List Message :=
  if callerIdentity == ADMIN_ID && optTruthy queryUserId then
    List.insertionSort msgLe
      (store.filter (betweenPred ADMIN_ID (queryUserId.getD "")))
  else
    List.insertionSort msgLe (store.filter (betweenPred callerIdentity ADMIN_ID))

/-- Embedding of `getChatUsers` (Server.js 371-387).  Non-admin callers get
HTTP 403.  For the admin the source computes
`LiveChat.distinct("sender", \x7b receiver: adminId \x7d)` and drops the admin id
itself; the final `User.find` only decorates these ids with name and email,
so the result is modelled as the list of ids. -/
def getChatUsers (callerIdentity : String) (store : List Message) :
    Except ChatError (List String) :=
  if callerIdentity ≠ ADMIN_ID then
    Except.error (ChatError.authorizationError "Access denied")
  else
    let userIds := ((store.filter (fun m => m.receiver == ADMIN_ID)).map
      (fun m => m.sender)).dedup
    Except.ok (userIds.filter (fun id => id != ADMIN_ID))

/-- The `$project` stage of the `getAllUserChats` aggregation: the party of
a message other than the admin (`$cond` on `sender == adminId`). -/
def otherParty (m : Message) : String :=
  if m.sender = ADMIN_ID then m.receiver else m.sender

/-- One element of the `getAllUserChats` response: the `$group` output
`_id` (the counterpart user), `lastMessage` and `lastUpdated`. -/
structure ChatSummary where
  user : String
  lastMessage : String
  lastUpdated : Nat
  deriving Repr, DecidableEq

/-- Descending order on `lastUpdated`, the `$sort: \x7b lastUpdated: -1 \x7d`
stage. -/
def sumGe (a b : ChatSummary) : Prop := b.lastUpdated ≤ a.lastUpdated

instance : DecidableRel sumGe := fun a b => Nat.decLe b.lastUpdated a.lastUpdated

instance : IsTotal ChatSummary sumGe := ⟨fun a b => Nat.le_total b.lastUpdated a.lastUpdated⟩

instance : IsTrans ChatSummary sumGe := ⟨fun _ _ _ h1 h2 => Nat.le_trans h2 h1⟩

/-- Embedding of `getAllUserChats` (Server.js 391-431).  Non-admin callers
get HTTP 403.  The aggregation pipeline `$match`es messages touching the
admin, `$project`s the counterpart (`otherParty`), `$group`s by it taking
`$last` of `message` and `createdAt` — the last element of each group in
pipeline order, since no `$sort` precedes the `$group` — and finally sorts
descending by `lastUpdated`. -/
def getAllUserChats (callerIdentity : String) (store : List Message) :
    Except ChatError (List ChatSummary) :=
  if callerIdentity ≠ ADMIN_ID then
    Except.error (ChatError.authorizationError "Access denied")
  else
    let touching := store.filter
      (fun m => m.sender == ADMIN_ID || m.receiver == ADMIN_ID)
    let users := (touching.map otherParty).dedup
    let summaries := users.map (fun u =>
      { user := u
        lastMessage :=
          (((touching.filter (fun m => otherParty m == u)).getLast?).map
            Message.message).getD ""
        lastUpdated :=
          (((touching.filter (fun m => otherParty m == u)).getLast?).map
            Message.createdAt).getD 0 })
    Except.ok (List.insertionSort sumGe summaries)

/-- Embedding of the `new message` handler of `chatSocket.js` (lines
33-40): the list of rooms to which `message received` is emitted.  The
source iterates over `[message.sender, message.receiver]` and emits to each
entry that differs from `message.sender`. -/
def newMessageDeliveries (message : Message) : List String :=
  ([message.sender, message.receiver]).filter
    (fun userId => userId != message.sender)

/-! ### Helper lemmas -/

/-- In a list whose `createdAt` values are pairwise nondecreasing, every
element's `createdAt` is bounded by that of the last element. -/
theorem createdAt_le_getLast :
    ∀ (l : List Message), l.Pairwise msgLe → ∀ b : Message, l.getLast? = some b →
      ∀ a ∈ l, a.createdAt ≤ b.createdAt
  | [], _, b, hb => by simp at hb
  | [x], _, b, hb => by
      simp only [List.getLast?_singleton, Option.some.injEq] at hb
      intro a ha
      simp only [List.mem_singleton] at ha
      subst ha; subst hb
      exact Nat.le_refl _
  | x :: y :: t, hp, b, hb => by
      rw [List.getLast?_cons_cons] at hb
      rcases List.pairwise_cons.mp hp with ⟨hx, hyt⟩
      intro a ha
      rcases List.mem_cons.mp ha with rfl | ha2
      · exact hx b (List.mem_of_getLast?_eq_some hb)
      · exact createdAt_le_getLast (y :: t) hyt b hb a ha2

/-! ### Claim C1 -/

/-- Claim C1: a call to `sendMessage` by a caller other than the admin with
a non-empty message body persists a `Message` whose `receiver` is
`ADMIN_ID` — whatever `body.receiver` holds — and whose `sender` is the
caller identity. -/
theorem sendMessage_nonadmin_forces_admin_receiver
    (caller : String) (body : SendBody) (now : Nat) (store : List Message)
    (s : String) (hc : caller ≠ ADMIN_ID) (hm : body.message = some s) (hs : s ≠ "") :
    sendMessage caller body now store =
      (Except.ok ⟨caller, ADMIN_ID, s, now⟩, store ++ [⟨caller, ADMIN_ID, s, now⟩]) := by
  simp [sendMessage, hm, optTruthy, hs, hc]

/-- Witness for C1: user `u1` sends `hello` with a `receiver` field set to
`u2`; the stored message still goes to the admin. -/
theorem sendMessage_nonadmin_forces_admin_receiver_witness :
    sendMessage "u1" ⟨some "hello", some "u2"⟩ 0 [] =
      (Except.ok ⟨"u1", ADMIN_ID, "hello", 0⟩, [⟨"u1", ADMIN_ID, "hello", 0⟩]) :=
  sendMessage_nonadmin_forces_admin_receiver "u1" ⟨some "hello", some "u2"⟩ 0 [] "hello"
    (by decide) rfl (by decide)

/-! ### Claim C2 -/

/-- Counterexample to C2: the admin sends a non-empty message with the
`receiver` field present but equal to the empty string.  The claim says a
present `receiver` leads to a persisted message with that receiver, but the
source tests JavaScript truthiness (`if (!receiver)`), so the call fails
with the 400 validation response and nothing is persisted. -/
theorem sendMessage_admin_present_empty_receiver_fails :
    sendMessage ADMIN_ID ⟨some "hi", some ""⟩ 0 [] =
      (Except.error (ChatError.validationError "Receiver required"), []) := rfl

/-- Amended C2: for an admin call with a non-empty message, an absent or
present-but-empty `receiver` fails with the validation error and leaves the
store unchanged, while a present non-empty `receiver` persists a message
with exactly that receiver. -/
theorem sendMessage_admin_receiver_rules
    (body : SendBody) (now : Nat) (store : List Message) (s : String)
    (hm : body.message = some s) (hs : s ≠ "") :
    ((body.receiver = none ∨ body.receiver = some "") →
        sendMessage ADMIN_ID body now store =
          (Except.error (ChatError.validationError "Receiver required"), store)) ∧
    (∀ r : String, body.receiver = some r → r ≠ "" →
        sendMessage ADMIN_ID body now store =
          (Except.ok ⟨ADMIN_ID, r, s, now⟩, store ++ [⟨ADMIN_ID, r, s, now⟩])) := by
  constructor
  · intro hr
    rcases hr with hr | hr <;> simp [sendMessage, hm, optTruthy, hs, hr]
  · intro r hr hrne
    simp [sendMessage, hm, optTruthy, hs, hr, hrne]

/-- Witness for the amended C2: the admin sends `hi` to `u1` and the stored
message carries receiver `u1`. -/
theorem sendMessage_admin_receiver_rules_witness :
    sendMessage ADMIN_ID ⟨some "hi", some "u1"⟩ 0 [] =
      (Except.ok ⟨ADMIN_ID, "u1", "hi", 0⟩, [⟨ADMIN_ID, "u1", "hi", 0⟩]) :=
  (sendMessage_admin_receiver_rules ⟨some "hi", some "u1"⟩ 0 [] "hi" rfl (by decide)).2
    "u1" rfl (by decide)

/-! ### Claim C3 -/

/-- Counterexample to C3: a whitespace-only message body (every character
whitespace, so it trims to empty) is a truthy JavaScript string, so the
source's `if (!message)` check lets it through and the message is
persisted verbatim, contradicting the claimed `ValidationError`. -/
theorem sendMessage_whitespace_message_accepted :
    (" ").data.all Char.isWhitespace = true ∧
    sendMessage "u1" ⟨some " ", none⟩ 0 [] =
      (Except.ok ⟨"u1", ADMIN_ID, " ", 0⟩, [⟨"u1", ADMIN_ID, " ", 0⟩]) :=
  ⟨by decide, rfl⟩

/-- Amended C3: `sendMessage` fails with the message-required validation
error and persists nothing exactly for the JavaScript-falsy message bodies,
namely an absent message or the empty string; a non-empty whitespace-only
body is accepted and stored untrimmed. -/
theorem sendMessage_falsy_message_rejected
    (caller : String) (body : SendBody) (now : Nat) (store : List Message)
    (hm : body.message = none ∨ body.message = some "") :
    sendMessage caller body now store =
      (Except.error (ChatError.validationError "Message content is required"), store) := by
  rcases hm with hm | hm <;> simp [sendMessage, optTruthy, hm]

/-- Witness for the amended C3: an absent message body is rejected and the
store is unchanged. -/
theorem sendMessage_falsy_message_rejected_witness :
    sendMessage "u1" ⟨none, none⟩ 0 [] =
      (Except.error (ChatError.validationError "Message content is required"), []) :=
  sendMessage_falsy_message_rejected "u1" ⟨none, none⟩ 0 [] (Or.inl rfl)

/-! ### Claim C4 -/

/-- Counterexample to C4: the admin can choose itself as receiver, and
`sendMessage` then persists a message whose sender equals its receiver,
contradicting the claimed no-self-message invariant. -/
theorem sendMessage_admin_self_message :
    sendMessage ADMIN_ID ⟨some "hi", some ADMIN_ID⟩ 0 [] =
      (Except.ok ⟨ADMIN_ID, ADMIN_ID, "hi", 0⟩, [⟨ADMIN_ID, ADMIN_ID, "hi", 0⟩]) ∧
    (Message.mk ADMIN_ID ADMIN_ID "hi" 0).sender =
      (Message.mk ADMIN_ID ADMIN_ID "hi" 0).receiver :=
  ⟨rfl, rfl⟩

/-- Amended C4: a message persisted by `sendMessage` has equal sender and
receiver exactly when the caller is the admin and supplied `ADMIN_ID` as
the explicit receiver; in particular every message persisted by a
non-admin caller has distinct sender and receiver. -/
theorem sendMessage_self_message_iff
    (caller : String) (body : SendBody) (now : Nat) (store st2 : List Message)
    (m : Message) (h : sendMessage caller body now store = (Except.ok m, st2)) :
    (m.sender = m.receiver ↔ (caller = ADMIN_ID ∧ body.receiver = some ADMIN_ID)) := by
  rw [sendMessage] at h
  by_cases h1 : optTruthy body.message = false
  · rw [if_pos h1] at h
    simp at h
  · rw [if_neg h1] at h
    by_cases h2 : caller = ADMIN_ID
    · rw [if_pos h2] at h
      by_cases h3 : optTruthy body.receiver = false
      · rw [if_pos h3] at h
        simp at h
      · rw [if_neg h3] at h
        have hm2 : m = ⟨caller, body.receiver.getD "", body.message.getD "", now⟩ := by
          have hfst := congrArg Prod.fst h
          simpa using hfst.symm
        subst hm2
        subst h2
        cases hr : body.receiver with
        | none =>
            rw [hr] at h3
            simp [optTruthy] at h3
        | some r =>
            show ADMIN_ID = r ↔ ADMIN_ID = ADMIN_ID ∧ some r = some ADMIN_ID
            constructor
            · intro hx
              exact ⟨rfl, congrArg some hx.symm⟩
            · rintro ⟨-, hx⟩
              exact (Option.some.inj hx).symm
    · rw [if_neg h2] at h
      have hm2 : m = ⟨caller, ADMIN_ID, body.message.getD "", now⟩ := by
        have hfst := congrArg Prod.fst h
        simpa using hfst.symm
      subst hm2
      simp [h2]

/-- Witness for the amended C4: a non-admin send yields a message with
distinct sender and receiver, matching the right-hand side being false. -/
theorem sendMessage_self_message_iff_witness :
    ((Message.mk "u1" ADMIN_ID "hi" 0).sender = (Message.mk "u1" ADMIN_ID "hi" 0).receiver
      ↔ ("u1" = ADMIN_ID ∧ (some "hi" : Option String) = some ADMIN_ID)) :=
  by
    have h := sendMessage_self_message_iff "u1" ⟨some "hi", some "hi"⟩ 0 []
      [⟨"u1", ADMIN_ID, "hi", 0⟩] ⟨"u1", ADMIN_ID, "hi", 0⟩ rfl
    simpa using h

/-! ### Claim C5 -/

/-- Counterexample to C5: `u1` appears in the receiver field of a message
whose other party is the admin (the admin wrote to `u1`), so the claim
requires `u1` in the roster; but the source computes
`distinct("sender", \x7b receiver: adminId \x7d)`, which only inspects senders of
messages addressed to the admin, and returns the empty roster. -/
theorem getChatUsers_misses_receiver_only_user :
    getChatUsers ADMIN_ID [⟨ADMIN_ID, "u1", "hi", 0⟩] = Except.ok [] ∧
    "u1" ≠ ADMIN_ID ∧ (Message.mk ADMIN_ID "u1" "hi" 0).receiver = "u1" :=
  ⟨rfl, by decide, rfl⟩

/-- Amended C5: `getChatUsers` fails with the authorization error for every
non-admin caller; for the admin it returns exactly the distinct non-admin
identities that appear as the SENDER of a message whose receiver is the
admin.  A user who only ever received messages from the admin is not
listed. -/
theorem getChatUsers_spec (caller : String) (store : List Message) :
    (caller ≠ ADMIN_ID →
      getChatUsers caller store =
        Except.error (ChatError.authorizationError "Access denied")) ∧
    (∀ l, getChatUsers caller store = Except.ok l →
      ∀ u, u ∈ l ↔ (u ≠ ADMIN_ID ∧ ∃ m ∈ store, m.receiver = ADMIN_ID ∧ m.sender = u)) := by
  constructor
  · intro hc
    simp [getChatUsers, hc]
  · intro l hl u
    by_cases hc : caller = ADMIN_ID
    · subst hc
      rw [getChatUsers, if_neg (by simp)] at hl
      have hl2 := Except.ok.inj hl
      subst hl2
      simp only [List.mem_filter, List.mem_dedup, List.mem_map, List.mem_filter,
        beq_iff_eq, bne_iff_ne, ne_eq]
      constructor
      · rintro ⟨⟨m, ⟨hm, hrecv⟩, rfl⟩, hne⟩
        exact ⟨hne, m, hm, hrecv, rfl⟩
      · rintro ⟨hne, m, hm, hrecv, rfl⟩
        exact ⟨⟨m, ⟨hm, hrecv⟩, rfl⟩, hne⟩
    · rw [getChatUsers, if_pos hc] at hl
      exact absurd hl (by simp)

/-- Witness for the amended C5: a non-admin caller is refused, and for the
admin a store holding one user-to-admin message yields exactly that
sender. -/
theorem getChatUsers_spec_witness :
    getChatUsers "u1" [] = Except.error (ChatError.authorizationError "Access denied") ∧
    ("u1" ∈ ["u1"] ↔ ("u1" ≠ ADMIN_ID ∧
      ∃ m ∈ [Message.mk "u1" ADMIN_ID "hi" 0], m.receiver = ADMIN_ID ∧ m.sender = "u1")) :=
  ⟨(getChatUsers_spec "u1" []).1 (by decide),
   (getChatUsers_spec ADMIN_ID [⟨"u1", ADMIN_ID, "hi", 0⟩]).2 ["u1"] rfl "u1"⟩

/-! ### Claim C6 -/

/-- Counterexample to C6: two messages between `u1` and the admin are
inserted out of `createdAt` order (timestamps 10 then 5).  The message with
the greatest `createdAt` has text `late`, but the aggregation's `$last`
accumulator — applied without a preceding `$sort` — picks the last-inserted
document, so the summary reports `early` with `lastUpdated` 5. -/
theorem getAllUserChats_last_not_chronological :
    getAllUserChats ADMIN_ID
        [⟨"u1", ADMIN_ID, "late", 10⟩, ⟨"u1", ADMIN_ID, "early", 5⟩] =
      Except.ok [⟨"u1", "early", 5⟩] ∧ (5 : Nat) < 10 ∧ "early" ≠ "late" :=
  ⟨rfl, by decide, by decide⟩

/-- Amended C6: the entries returned to the admin are sorted descending by
`lastUpdated`, and each entry's `lastMessage` and `lastUpdated` come from
the LAST-INSERTED message of that counterpart's group.  Only when the store
is in ascending `createdAt` order (insertions in chronological order, as
the deployed store produces) is this the message with the greatest
`createdAt`: under that hypothesis the entry's message realises the
maximum of `createdAt` over the group. -/
theorem getAllUserChats_sorted_and_last_inserted
    (caller : String) (store : List Message) (l : List ChatSummary)
    (h : getAllUserChats caller store = Except.ok l) :
    List.Sorted sumGe l ∧
    (store.Pairwise msgLe →
      ∀ e ∈ l, ∃ m ∈ store,
        (m.sender = ADMIN_ID ∨ m.receiver = ADMIN_ID) ∧
        otherParty m = e.user ∧
        m.message = e.lastMessage ∧ m.createdAt = e.lastUpdated ∧
        ∀ m2 ∈ store, (m2.sender = ADMIN_ID ∨ m2.receiver = ADMIN_ID) →
          otherParty m2 = e.user → m2.createdAt ≤ e.lastUpdated) := by
  by_cases hc : caller = ADMIN_ID
  · rw [getAllUserChats, if_neg (fun hne => hne hc)] at h
    have hl :
        List.insertionSort sumGe
          (((store.filter
              (fun m => m.sender == ADMIN_ID || m.receiver == ADMIN_ID)).map
                otherParty).dedup.map (fun u =>
            { user := u
              lastMessage :=
                ((((store.filter
                    (fun m => m.sender == ADMIN_ID || m.receiver == ADMIN_ID)).filter
                      (fun m => otherParty m == u)).getLast?).map
                  Message.message).getD ""
              lastUpdated :=
                ((((store.filter
                    (fun m => m.sender == ADMIN_ID || m.receiver == ADMIN_ID)).filter
                      (fun m => otherParty m == u)).getLast?).map
                  Message.createdAt).getD 0 })) = l := by
      simpa using h
    subst hl
    refine ⟨List.sorted_insertionSort sumGe _, ?_⟩
    intro hmono e he
    have he2 := (List.mem_insertionSort (r := sumGe)).1 he
    obtain ⟨u, hu, rfl⟩ := List.mem_map.mp he2
    have hu2 := List.mem_dedup.mp hu
    obtain ⟨m0, hm0t, hm0u⟩ := List.mem_map.mp hu2
    have hm0g : m0 ∈ (store.filter
        (fun m => m.sender == ADMIN_ID || m.receiver == ADMIN_ID)).filter
          (fun m => otherParty m == u) :=
      List.mem_filter.mpr ⟨hm0t, by simp [hm0u]⟩
    cases hg : ((store.filter
        (fun m => m.sender == ADMIN_ID || m.receiver == ADMIN_ID)).filter
          (fun m => otherParty m == u)).getLast? with
    | none =>
        rw [List.getLast?_eq_none_iff] at hg
        rw [hg] at hm0g
        exact absurd hm0g (List.not_mem_nil m0)
    | some g =>
        have hgmem := List.mem_of_getLast?_eq_some hg
        have hgt := (List.mem_filter.mp hgmem).1
        have hgu : otherParty g = u := by
          have := (List.mem_filter.mp hgmem).2
          simpa using this
        have hgstore := (List.mem_filter.mp hgt).1
        have hgadm : g.sender = ADMIN_ID ∨ g.receiver = ADMIN_ID := by
          have := (List.mem_filter.mp hgt).2
          simpa using this
        refine ⟨g, hgstore, hgadm, ?_, ?_, ?_, ?_⟩
        · simpa using hgu
        · simp [hg]
        · simp [hg]
        · intro m2 hm2s hm2adm hm2u
          have hm2t : m2 ∈ store.filter
              (fun m => m.sender == ADMIN_ID || m.receiver == ADMIN_ID) :=
            List.mem_filter.mpr ⟨hm2s, by simpa using hm2adm⟩
          have hm2g : m2 ∈ (store.filter
              (fun m => m.sender == ADMIN_ID || m.receiver == ADMIN_ID)).filter
                (fun m => otherParty m == u) :=
            List.mem_filter.mpr ⟨hm2t, by simpa using hm2u⟩
          have hpair : ((store.filter
              (fun m => m.sender == ADMIN_ID || m.receiver == ADMIN_ID)).filter
                (fun m => otherParty m == u)).Pairwise msgLe :=
            List.Pairwise.sublist
              ((List.filter_sublist _).trans (List.filter_sublist _)) hmono
          have hle := createdAt_le_getLast _ hpair g hg m2 hm2g
          simpa [hg] using hle
  · rw [getAllUserChats, if_pos hc] at h
    simp at h

/-- Witness for the amended C6: a store with one user-to-admin message
yields the singleton summary, which is sorted and whose entry realises the
group's maximal timestamp. -/
theorem getAllUserChats_sorted_and_last_inserted_witness :
    List.Sorted sumGe [ChatSummary.mk "u1" "hi" 3] ∧
    (([Message.mk "u1" ADMIN_ID "hi" 3]).Pairwise msgLe →
      ∀ e ∈ [ChatSummary.mk "u1" "hi" 3], ∃ m ∈ [Message.mk "u1" ADMIN_ID "hi" 3],
        (m.sender = ADMIN_ID ∨ m.receiver = ADMIN_ID) ∧
        otherParty m = e.user ∧
        m.message = e.lastMessage ∧ m.createdAt = e.lastUpdated ∧
        ∀ m2 ∈ [Message.mk "u1" ADMIN_ID "hi" 3],
          (m2.sender = ADMIN_ID ∨ m2.receiver = ADMIN_ID) →
          otherParty m2 = e.user → m2.createdAt ≤ e.lastUpdated) :=
  getAllUserChats_sorted_and_last_inserted ADMIN_ID [⟨"u1", ADMIN_ID, "hi", 3⟩]
    [⟨"u1", "hi", 3⟩] rfl

/-! ### Claim C7 -/

/-- Counterexample to C7: a `new message` event whose sender equals its
receiver (producible, since `sendMessage` lets the admin address itself) is
delivered to no room at all — in particular not to the room named by
`message.receiver` — because both members of the fan-out pair equal the
sender and are skipped. -/
theorem newMessage_self_send_dropped :
    newMessageDeliveries ⟨"u1", "u1", "hi", 0⟩ = [] ∧
    (Message.mk "u1" "u1" "hi" 0).receiver = "u1" :=
  ⟨rfl, rfl⟩

/-- Amended C7: the fan-out never emits to the sender's room, and it emits
exactly to the members of the pair that differ from the sender: the
receiver's room when the receiver differs from the sender, and no room at
all for a self-addressed message. -/
theorem newMessageDeliveries_spec (m : Message) :
    m.sender ∉ newMessageDeliveries m ∧
    newMessageDeliveries m = (if m.receiver = m.sender then [] else [m.receiver]) := by
  constructor
  · intro hmem
    have := (List.mem_filter.mp hmem).2
    simp at this
  · by_cases h : m.receiver = m.sender <;>
      simp [newMessageDeliveries, List.filter_cons, h]

/-! ### Claim C8 -/

/-- Claim C8: `getMessages` returns the conversation sorted ascending by
`createdAt`; and when the store's `createdAt` values are nondecreasing in
insertion order (the store assigns monotone timestamps, ties allowed), the
result is exactly the insertion-ordered sublist of the store matching the
conversation filter — so any two messages inserted in sequence between the
same pair come back in insertion order, ties broken by insertion order
thanks to the stable sort. -/
theorem getMessages_insertion_order
    (caller : String) (q : Option String) (store : List Message) :
    List.Sorted msgLe (getMessages caller q store) ∧
    (store.Pairwise msgLe →
      getMessages caller q store =
        store.filter (if caller == ADMIN_ID && optTruthy q then
          betweenPred ADMIN_ID (q.getD "") else betweenPred caller ADMIN_ID)) := by
  rw [getMessages]
  by_cases h : (caller == ADMIN_ID && optTruthy q) = true
  · rw [if_pos h, if_pos h]
    exact ⟨List.sorted_insertionSort msgLe _,
      fun hmono => List.Sorted.insertionSort_eq (List.Sorted.filter _ hmono)⟩
  · rw [if_neg h, if_neg h]
    exact ⟨List.sorted_insertionSort msgLe _,
      fun hmono => List.Sorted.insertionSort_eq (List.Sorted.filter _ hmono)⟩

/-- Witness for C8: two messages of the `u1`-admin conversation inserted
with timestamps 1 then 2 come back as the insertion-ordered filter of the
store. -/
theorem getMessages_insertion_order_witness :
    getMessages "u1" none [⟨"u1", ADMIN_ID, "a", 1⟩, ⟨ADMIN_ID, "u1", "b", 2⟩] =
      List.filter (if ("u1" == ADMIN_ID && optTruthy none) then
          betweenPred ADMIN_ID ((none : Option String).getD "")
        else betweenPred "u1" ADMIN_ID)
        [⟨"u1", ADMIN_ID, "a", 1⟩, ⟨ADMIN_ID, "u1", "b", 2⟩] :=
  (getMessages_insertion_order "u1" none
    [⟨"u1", ADMIN_ID, "a", 1⟩, ⟨ADMIN_ID, "u1", "b", 2⟩]).2 (by decide)

/-! ### Claim C9 -/

/-- Claim C9: for a non-admin caller the result of `getMessages` does not
depend on `query.userId` — any two query values (present or absent) give
the same list — and that list is the caller's own conversation with the
admin. -/
theorem getMessages_independent_of_userId
    (caller : String) (q1 q2 : Option String) (store : List Message)
    (hc : caller ≠ ADMIN_ID) :
    getMessages caller q1 store = getMessages caller q2 store ∧
    getMessages caller q1 store =
      List.insertionSort msgLe (store.filter (betweenPred caller ADMIN_ID)) := by
  have hb : (caller == ADMIN_ID) = false := beq_eq_false_iff_ne.mpr hc
  constructor <;> simp [getMessages, hb]

/-- Witness for C9: `u1` asking for `u2`'s conversation gets the same
answer as asking with no `userId` at all, namely `u1`'s own conversation
with the admin. -/
theorem getMessages_independent_of_userId_witness :
    getMessages "u1" (some "u2")
        [⟨"u2", ADMIN_ID, "x", 0⟩, ⟨"u1", ADMIN_ID, "y", 1⟩] =
      getMessages "u1" none [⟨"u2", ADMIN_ID, "x", 0⟩, ⟨"u1", ADMIN_ID, "y", 1⟩] ∧
    getMessages "u1" (some "u2")
        [⟨"u2", ADMIN_ID, "x", 0⟩, ⟨"u1", ADMIN_ID, "y", 1⟩] =
      List.insertionSort msgLe
        (List.filter (betweenPred "u1" ADMIN_ID)
          [⟨"u2", ADMIN_ID, "x", 0⟩, ⟨"u1", ADMIN_ID, "y", 1⟩]) :=
  getMessages_independent_of_userId "u1" (some "u2") none
    [⟨"u2", ADMIN_ID, "x", 0⟩, ⟨"u1", ADMIN_ID, "y", 1⟩] (by decide)

/-! ### Claim C10 -/

/-- Claim C10: whenever `sendMessage` answers with a validation error, the
store is returned exactly unchanged — both validation checks sit before
the single `LiveChat.create`, so an erroring call performs no write. -/
theorem sendMessage_error_leaves_store
    (caller : String) (body : SendBody) (now : Nat) (store : List Message)
    (e : ChatError) (h : (sendMessage caller body now store).1 = Except.error e) :
    (sendMessage caller body now store).2 = store := by
  rw [sendMessage] at h ⊢
  by_cases h1 : optTruthy body.message = false
  · rw [if_pos h1]
  · rw [if_neg h1] at h ⊢
    by_cases h2 : caller = ADMIN_ID
    · rw [if_pos h2] at h ⊢
      by_cases h3 : optTruthy body.receiver = false
      · rw [if_pos h3]
      · rw [if_neg h3] at h
        simp at h
    · rw [if_neg h2] at h
      simp at h

/-- Witness for C10: the admin sending without a receiver is rejected and a
non-empty store is returned untouched. -/
theorem sendMessage_error_leaves_store_witness :
    (sendMessage ADMIN_ID ⟨some "hi", none⟩ 0 [⟨"u1", ADMIN_ID, "y", 1⟩]).2 =
      [⟨"u1", ADMIN_ID, "y", 1⟩] :=
  sendMessage_error_leaves_store ADMIN_ID ⟨some "hi", none⟩ 0
    [⟨"u1", ADMIN_ID, "y", 1⟩] (ChatError.validationError "Receiver required") rfl
